import Mathlib

/-!
Verification of the New-PillCounter-app image processing pipeline.

This file gives a shallow embedding, over exact rationals, of the pure
computational content of the repository's pill-counting pipeline:

* `src/imageProcessing.js` — validation/compression policy
  (`validateAndCompressImage`), prediction filtering and center-to-top-left
  conversion (`processAndDisplayImage`), and canvas annotation
  (`drawDetectionsOnCanvas`);
* `files/imageProcessing.js` — the alternate draft pipeline with an explicit
  inference downscale (`maxProcessingDimension = 1024`) and the
  inference-space → original-space coordinate scaling step;
* `App.jsx` (`handleImageCapture`) and the progress reporting sequence.

Numbers are modelled as `ℚ`; asynchronous effects (image decode, the network
call, canvas blob encoding) are modelled by explicit outcome parameters and
by traces of the values delivered to callbacks.
-/

namespace PillCounter

/-- Configured confidence threshold: `CONFIDENCE_THRESHOLD = 0.50` in
`src/imageProcessing.js`. -/
def CONFIDENCE_THRESHOLD : ℚ := 50 / 100

/-- `MAX_FILE_SIZE = 10 * 1024 * 1024` bytes in `validateAndCompressImage`. -/
def MAX_FILE_SIZE : ℕ := 10 * 1024 * 1024

/-- `MAX_DIMENSION = 4096` pixels in `validateAndCompressImage`. -/
def MAX_DIMENSION : ℕ := 4096

/-- `maxProcessingDimension = 1024` in `files/imageProcessing.js`
(`processAndDisplayImage`), the cap on the inference image's dimensions. -/
def maxProcessingDimension : ℕ := 1024

/-- A raw prediction as returned by the Roboflow detection service:
center-based `x`, `y` plus `width`, `height`, a `confidence` in `[0, 1]`,
and a class label (field `cls` here; the JS property is `class`). -/
structure Prediction where
  x : ℚ
  y : ℚ
  width : ℚ
  height : ℚ
  confidence : ℚ
  cls : String
deriving DecidableEq, Repr

/-- A formatted detection as produced by `processAndDisplayImage` in
`src/imageProcessing.js`: top-left based box plus confidence and class. -/
structure Detection where
  x : ℚ
  y : ℚ
  width : ℚ
  height : ℚ
  confidence : ℚ
  cls : String
deriving DecidableEq, Repr

/-- A detection of the `files/imageProcessing.js` draft pipeline: its
detection objects carry exactly `x`, `y`, `width`, `height`, `confidence`
(top-left based) and no class label. -/
structure PlainDetection where
  x : ℚ
  y : ℚ
  width : ℚ
  height : ℚ
  confidence : ℚ
deriving DecidableEq, Repr

/-- Center-to-top-left conversion performed on each accepted prediction in
`src/imageProcessing.js` lines 227–236:
`x = p.x - p.width/2`, `y = p.y - p.height/2`, width/height/confidence/class
copied through. -/
def toDetection (p : Prediction) : Detection where
  x := p.x - p.width / 2
  y := p.y - p.height / 2
  width := p.width
  height := p.height
  confidence := p.confidence
  cls := p.cls

/-- Prediction processing of `src/imageProcessing.js` lines 225–236:
keep predictions with `confidence >= CONFIDENCE_THRESHOLD`, then convert
each to a top-left `Detection`. -/
def formatDetections (preds : List Prediction) : List Detection :=
  (preds.filter fun p => decide (CONFIDENCE_THRESHOLD ≤ p.confidence)).map toDetection

/-- Inference-space → original-space coordinate mapping of
`files/imageProcessing.js` lines 155–161: divide each spatial field by the
scale factor, copy `confidence` through. -/
def scaleDetection (scale : ℚ) (d : PlainDetection) : PlainDetection where
  x := d.x / scale
  y := d.y / scale
  width := d.width / scale
  height := d.height / scale
  confidence := d.confidence

/-- The inference scale factor of `files/imageProcessing.js` lines 129–134:
`Math.min(maxProcessingDimension / originalWidth,
maxProcessingDimension / originalHeight, 1)`. -/
def processingScale (originalWidth originalHeight : ℕ) : ℚ :=
  min (min ((maxProcessingDimension : ℚ) / originalWidth)
      ((maxProcessingDimension : ℚ) / originalHeight)) 1

/-- The inference image dimensions of `files/imageProcessing.js` lines
136–137: `Math.floor(original * scale)` on each axis, same scale for both. -/
def processedCanvasSize (originalWidth originalHeight : ℕ) : ℕ × ℕ :=
  (⌊(originalWidth : ℚ) * processingScale originalWidth originalHeight⌋.toNat,
   ⌊(originalHeight : ℚ) * processingScale originalWidth originalHeight⌋.toNat)

/-- Outcome of the browser's attempt to decode the input as an image,
modelling the `img.onload` / `img.onerror` / 30-second timeout branches of
`validateAndCompressImage`. -/
inductive DecodeOutcome where
  | ok (width height : ℕ)
  | failed
  | timedOut
deriving DecidableEq, Repr

/-- The typed failures of `validateAndCompressImage`
(`TooLarge` / `DecodeError` / `LoadTimeout` in the spec's terms). -/
inductive PipelineError where
  | tooLarge
  | decodeError
  | loadTimeout
deriving DecidableEq, Repr

/-- An input image file: byte size, MIME type, file name. -/
structure ImgFile where
  size : ℕ
  mime : String
  name : String
deriving DecidableEq, Repr

/-- The file produced by `validateAndCompressImage` on success: pixel
dimensions of the canvas it was drawn on, the MIME type and quality passed
to `canvas.toBlob`, and the (copied) file name. -/
structure OutFile where
  width : ℕ
  height : ℕ
  mime : String
  quality : ℚ
  name : String
deriving DecidableEq, Repr

/-- `validateAndCompressImage` from `src/imageProcessing.js` lines 12–92.
The byte-size check (`file.size > MAX_FILE_SIZE`) happens first, before the
image is decoded, so the decode outcome is a separate parameter consulted
only afterwards.  On a successful decode the image is downscaled iff a
dimension exceeds `MAX_DIMENSION` (same scale both axes, floor-rounded), and
the canvas is re-encoded via `canvas.toBlob('image/jpeg', 0.92)` on every
success path. -/
def validateAndCompressImage (file : ImgFile) (decode : DecodeOutcome) :
    Except PipelineError OutFile :=
  if MAX_FILE_SIZE < file.size then
    .error .tooLarge
  else
    match decode with
    | .timedOut => .error .loadTimeout
    | .failed => .error .decodeError
    | .ok w h =>
      let needsResize := MAX_DIMENSION < w ∨ MAX_DIMENSION < h
      let scale : ℚ := min ((MAX_DIMENSION : ℚ) / w) ((MAX_DIMENSION : ℚ) / h)
      let dims : ℕ × ℕ :=
        if needsResize then (⌊(w : ℚ) * scale⌋.toNat, ⌊(h : ℚ) * scale⌋.toNat)
        else (w, h)
      .ok { width := dims.1, height := dims.2, mime := "image/jpeg",
            quality := 92 / 100, name := file.name }

/-- One 2D-context drawing command issued by the annotation code. Text
commands record the string and the anchor point; rectangle commands record
the rectangle. -/
inductive DrawCmd where
  | drawImage
  | fillRect (x y w h : ℚ)
  | strokeRect (x y w h : ℚ)
  | strokeText (s : String) (x y : ℚ)
  | fillText (s : String) (x y : ℚ)
deriving DecidableEq, Repr

/-- The `(confidence * 100).toFixed(0) + '%'` label text of
`drawDetectionsOnCanvas` (rounded to the nearest integer percent). -/
def confLabel (confidence : ℚ) : String :=
  toString (round (confidence * 100)) ++ "%"

/-- Drawing commands issued for one detection by the `detections.forEach`
loop of `drawDetectionsOnCanvas` (`src/imageProcessing.js` lines 277–309):
semi-transparent fill, stroked bounding box, the 1-based number at
`(x+8, y+28)` (stroke then fill), and — only when `detection.confidence` is
truthy, i.e. nonzero — the confidence label at `(x+8, y+height-8)`. -/
def drawDetection (index : ℕ) (d : Detection) : List DrawCmd :=
  [.fillRect d.x d.y d.width d.height,
   .strokeRect d.x d.y d.width d.height,
   .strokeText (toString (index + 1)) (d.x + 8) (d.y + 28),
   .fillText (toString (index + 1)) (d.x + 8) (d.y + 28)] ++
  (if d.confidence ≠ 0 then
    [.strokeText (confLabel d.confidence) (d.x + 8) (d.y + d.height - 8),
     .fillText (confLabel d.confidence) (d.x + 8) (d.y + d.height - 8)]
  else [])

/-- `drawDetectionsOnCanvas` from `src/imageProcessing.js` lines 263–317.
Its only failure path is the image failing to load (`img.onerror`), modelled
by the `imageLoaded` flag; once loaded it sets the canvas to the image's
natural dimensions, draws the image, and runs the per-detection loop with no
bounds checks and no conditional failure. Returns the canvas dimensions and
the command list. -/
def drawDetectionsOnCanvas (imageLoaded : Bool) (naturalWidth naturalHeight : ℕ)
    (detections : List Detection) : Except String (ℕ × ℕ × List DrawCmd) :=
  if imageLoaded then
    .ok (naturalWidth, naturalHeight,
      DrawCmd.drawImage ::
        (detections.enum.map fun p => drawDetection p.1 p.2).flatten)
  else
    .error "Failed to load image for drawing"

/-- The closed box region `[x, x+width] × [y, y+height]` of a detection. -/
def pointInBox (d : Detection) (px py : ℚ) : Prop :=
  d.x ≤ px ∧ px ≤ d.x + d.width ∧ d.y ≤ py ∧ py ≤ d.y + d.height

/-- The canvas region `[0, w] × [0, h]`. -/
def pointInCanvas (w h : ℕ) (px py : ℚ) : Prop :=
  0 ≤ px ∧ px ≤ (w : ℚ) ∧ 0 ≤ py ∧ py ≤ (h : ℚ)

/-- A detection box lying entirely outside the canvas rectangle
`[0, w] × [0, h]`: strictly beyond one of its four edges. -/
def entirelyOutside (w h : ℕ) (d : Detection) : Prop :=
  d.x + d.width < 0 ∨ (w : ℚ) < d.x ∨ d.y + d.height < 0 ∨ (h : ℚ) < d.y

/-- The region painted by a box-rectangle command (fill or stroke path).
Text commands paint no box region. -/
def rectCmdCovers : DrawCmd → ℚ → ℚ → Prop
  | .fillRect x y w h, px, py => x ≤ px ∧ px ≤ x + w ∧ y ≤ py ∧ py ≤ y + h
  | .strokeRect x y w h, px, py => x ≤ px ∧ px ≤ x + w ∧ y ≤ py ∧ py ≤ y + h
  | _, _, _ => False

instance (d : Detection) (px py : ℚ) : Decidable (pointInBox d px py) := by
  unfold pointInBox; infer_instance

instance (w h : ℕ) (px py : ℚ) : Decidable (pointInCanvas w h px py) := by
  unfold pointInCanvas; infer_instance

instance (w h : ℕ) (d : Detection) : Decidable (entirelyOutside w h d) := by
  unfold entirelyOutside; infer_instance

instance (c : DrawCmd) (px py : ℚ) : Decidable (rectCmdCovers c px py) := by
  unfold rectCmdCovers; cases c <;> infer_instance

/-- The progress values passed by `callRoboflowAPI`
(`src/imageProcessing.js` lines 115, 130, 157) to its `onProgress` callback
on a successful call: 0.3, 0.7, 1.0. -/
def roboflowProgressTrace : List ℚ := [3 / 10, 7 / 10, 1]

/-- The percentages delivered to the caller's progress callback by one
successful `processAndDisplayImage` run (`src/imageProcessing.js` lines
173–242): 10, 30, 50, then `50 + p * 40` for each API progress value `p`,
then 90 and 100. -/
def processProgressTrace : List ℚ :=
  [10, 30, 50] ++ roboflowProgressTrace.map (fun p => 50 + p * 40) ++ [90, 100]

/-- The full progress-percentage sequence of one successful capture run in
`App.jsx` (`handleImageCapture`, lines 21–44): `setProgress` with 0
(Starting), 20 (Image validated) after `validateAndCompressImage`, and then
every percentage forwarded from `processAndDisplayImage`'s callback. -/
def handleImageCaptureProgressTrace : List ℚ :=
  [0, 20] ++ processProgressTrace

/-- The result object returned by `processAndDisplayImage`
(`src/imageProcessing.js` lines 245–252). -/
structure PipelineResult where
  originalImageUrl : String
  originalWidth : ℕ
  originalHeight : ℕ
  detections : List Detection
  pillCount : ℕ
  timestamp : String
deriving DecidableEq, Repr

/-- Construction of the result object in `src/imageProcessing.js` lines
212–252: detections are the filtered/converted predictions when the API
response has a predictions array (otherwise empty), and `pillCount` is
`detections.length`. -/
def processResult (originalImageUrl : String) (originalWidth originalHeight : ℕ)
    (apiPredictions : Option (List Prediction)) (timestamp : String) :
    PipelineResult :=
  let detections :=
    match apiPredictions with
    | some preds => formatDetections preds
    | none => []
  { originalImageUrl := originalImageUrl, originalWidth := originalWidth,
    originalHeight := originalHeight, detections := detections,
    pillCount := detections.length, timestamp := timestamp }

/-- The result object returned by the `files/imageProcessing.js` draft
pipeline (lines 166–174). -/
structure FilesResult where
  originalImageUrl : String
  originalWidth : ℕ
  originalHeight : ℕ
  detections : List PlainDetection
  pillCount : ℕ
  processingScale : ℚ
  timestamp : String
deriving DecidableEq, Repr

/-- Construction of the `files/imageProcessing.js` result (lines 129–174):
the raw inference-space detections are scaled back to original space with
`scaleDetection`, and `pillCount` is `scaledDetections.length`. -/
def filesProcessResult (originalImageUrl : String)
    (originalWidth originalHeight : ℕ) (rawDetections : List PlainDetection)
    (timestamp : String) : FilesResult :=
  let scale := processingScale originalWidth originalHeight
  let scaledDetections := rawDetections.map (scaleDetection scale)
  { originalImageUrl := originalImageUrl, originalWidth := originalWidth,
    originalHeight := originalHeight, detections := scaledDetections,
    pillCount := scaledDetections.length, processingScale := scale,
    timestamp := timestamp }

/-- A raw prediction at a given position with a given confidence. -/
def mkPred (px conf : ℚ) : Prediction :=
  { x := px, y := 50, width := 30, height := 20, confidence := conf, cls := "pill" }

/-- Ten raw predictions carrying the spec's example confidences
0.9, 0.4, 0.5, 0.51, 0.0, 1.0, 0.49, 0.6, 0.3, 0.8 (boxes at arbitrary
distinct positions). -/
def examplePredictions : List Prediction :=
  [mkPred 0 (9/10), mkPred 100 (2/5), mkPred 200 (1/2), mkPred 300 (51/100),
   mkPred 400 0, mkPred 500 1, mkPred 600 (49/100), mkPred 700 (3/5),
   mkPred 800 (3/10), mkPred 900 (4/5)]

/-- The first of the ten example predictions (confidence 0.9). -/
def examplePred0 : Prediction := mkPred 0 (9/10)

/-- A concrete inference-space detection used to instantiate the
coordinate-mapper theorems. -/
def exampleInferenceDet : PlainDetection :=
  { x := 12, y := 34, width := 56, height := 78, confidence := 9/10 }

/-- A 500 kB PNG input whose decoded dimensions are within bounds. -/
def pngFile : ImgFile :=
  { size := 500000, mime := "image/png", name := "photo.png" }

/-- A file one byte over the 10 MB limit. -/
def oversizedFile : ImgFile :=
  { size := 10 * 1024 * 1024 + 1, mime := "image/jpeg", name := "big.jpg" }

/-- A detection box lying entirely outside a 100×100 canvas
(to its upper left, with negative coordinates). -/
def outsideDet : Detection :=
  { x := -50, y := -50, width := 10, height := 10, confidence := 9/10, cls := "pill" }

/-- Helper: a point inside a box that lies entirely outside the canvas
cannot also lie inside the canvas. -/
lemma outside_box_disjoint_canvas (w h : ℕ) (d : Detection)
    (hout : entirelyOutside w h d) (px py : ℚ) (hbox : pointInBox d px py) :
    ¬ pointInCanvas w h px py := by
  rcases hbox with ⟨h1, h2, h3, h4⟩
  rintro ⟨h5, h6, h7, h8⟩
  rcases hout with h9 | h9 | h9 | h9 <;> linarith

/-- Claim C1: for every scale factor `s` with `0 < s ≤ 1`, the coordinate
mapping divides each spatial field by `s`; multiplying each mapped spatial
field by `s` recovers the original inference-space value exactly (so in
particular within any floating-point tolerance), and at `s = 1` the mapping
is the exact identity on the detection, with no rounding drift. -/
theorem scaleDetection_roundtrip (s : ℚ) (d : PlainDetection)
    (h0 : 0 < s) (h1 : s ≤ 1) :
    (scaleDetection s d).x * s = d.x ∧
    (scaleDetection s d).y * s = d.y ∧
    (scaleDetection s d).width * s = d.width ∧
    (scaleDetection s d).height * s = d.height ∧
    (s = 1 → scaleDetection s d = d) := by
  have hs : s ≠ 0 := ne_of_gt h0
  refine ⟨div_mul_cancel₀ _ hs, div_mul_cancel₀ _ hs,
    div_mul_cancel₀ _ hs, div_mul_cancel₀ _ hs, ?_⟩
  rintro rfl
  cases d
  simp [scaleDetection]

/-- Witness for C1 at `s = 1/2` and a concrete detection. -/
theorem scaleDetection_roundtrip_witness :
    (scaleDetection (1/2) exampleInferenceDet).x * (1/2) = exampleInferenceDet.x ∧
    (scaleDetection (1/2) exampleInferenceDet).y * (1/2) = exampleInferenceDet.y ∧
    (scaleDetection (1/2) exampleInferenceDet).width * (1/2) = exampleInferenceDet.width ∧
    (scaleDetection (1/2) exampleInferenceDet).height * (1/2) = exampleInferenceDet.height ∧
    ((1 : ℚ)/2 = 1 → scaleDetection (1/2) exampleInferenceDet = exampleInferenceDet) :=
  scaleDetection_roundtrip (1/2) exampleInferenceDet (by norm_num) (by norm_num)

/-- Claim C2: the converted top-left form of a raw center-based prediction
satisfies `x = cx - w/2` and `y = cy - h/2` with width and height unchanged,
and converting back (`x + width/2`, `y + height/2`) recovers the original
center. -/
theorem toDetection_centerTopLeft (p : Prediction) :
    (toDetection p).x = p.x - p.width / 2 ∧
    (toDetection p).y = p.y - p.height / 2 ∧
    (toDetection p).width = p.width ∧
    (toDetection p).height = p.height ∧
    (toDetection p).x + (toDetection p).width / 2 = p.x ∧
    (toDetection p).y + (toDetection p).height / 2 = p.y := by
  refine ⟨rfl, rfl, rfl, rfl, ?_, ?_⟩ <;> simp [toDetection]

/-- Claim C3: the confidence filter keeps exactly the predictions with
confidence ≥ 0.50, preserving original relative order (the retained
confidences form a sublist, and a prediction's conversion is retained iff
its confidence meets the threshold); on the spec's ten example confidences
exactly the six values 0.9, 0.5, 0.51, 1.0, 0.6, 0.8 survive, in order. -/
theorem confidenceFilter_spec :
    ((formatDetections examplePredictions).map Detection.confidence
        = [9/10, 1/2, 51/100, 1, 3/5, 4/5]) ∧
    (formatDetections examplePredictions).length = 6 ∧
    (∀ l : List Prediction,
      ((formatDetections l).map Detection.confidence).Sublist
        (l.map Prediction.confidence)) ∧
    (∀ l : List Prediction, ∀ p ∈ l,
      (CONFIDENCE_THRESHOLD ≤ p.confidence ↔ toDetection p ∈ formatDetections l)) := by
  refine ⟨by norm_num [formatDetections, examplePredictions, mkPred,
      toDetection, CONFIDENCE_THRESHOLD, List.filter],
    by norm_num [formatDetections, examplePredictions, mkPred,
      CONFIDENCE_THRESHOLD, List.filter], ?_, ?_⟩
  · intro l
    have h1 : (formatDetections l).map Detection.confidence
        = (l.filter fun p => decide (CONFIDENCE_THRESHOLD ≤ p.confidence)).map
            Prediction.confidence := by
      unfold formatDetections
      rw [List.map_map]
      rfl
    rw [h1]
    exact List.Sublist.map _ (List.filter_sublist l)
  · intro l p hp
    constructor
    · intro hc
      exact List.mem_map_of_mem _ (List.mem_filter.2 ⟨hp, by simpa using hc⟩)
    · intro hmem
      rcases List.mem_map.1 hmem with ⟨q, hq, hqe⟩
      have hq' := (List.mem_filter.1 hq).2
      have hconf : q.confidence = p.confidence := congrArg Detection.confidence hqe
      rw [← hconf]
      simpa using hq'

/-- Witness for C3: the first example prediction (confidence 0.9) is
retained. -/
theorem confidenceFilter_spec_witness :
    toDetection examplePred0 ∈ formatDetections examplePredictions :=
  (confidenceFilter_spec.2.2.2 examplePredictions examplePred0
      (by simp [examplePredictions, examplePred0])).mp
    (by norm_num [examplePred0, mkPred, CONFIDENCE_THRESHOLD])

/-- Claim C4: a 3024×4032 source with max inference dimension 1024 yields
exactly a 768×1024 inference image; the single scale factor
`min(1024/3024, 1024/4032, 1) = 1024/4032` is applied to both axes and
floor-rounded, so the longer axis maps to the maximum dimension. -/
theorem processedCanvasSize_3024_4032 :
    processedCanvasSize 3024 4032 = (768, 1024) ∧
    processingScale 3024 4032 = 1024 / 4032 := by
  have hscale : processingScale 3024 4032 = 1024 / 4032 := by
    unfold processingScale maxProcessingDimension
    rw [min_def, min_def]
    norm_num
  refine ⟨?_, hscale⟩
  unfold processedCanvasSize
  rw [hscale]
  norm_num [Prod.ext_iff, Int.toNat_ofNat]
  exact ⟨rfl, rfl⟩

/-- Counterexample to claim C5: a within-bounds 3000×2000 PNG is not passed
through unchanged — the validator returns a freshly encoded JPEG at quality
0.92, with a MIME type differing from the input's. -/
theorem validate_inBounds_counterexample :
    validateAndCompressImage pngFile (.ok 3000 2000) =
      .ok { width := 3000, height := 2000, mime := "image/jpeg",
            quality := 92/100, name := "photo.png" } ∧
    pngFile.mime ≠ "image/jpeg" := by
  constructor
  · norm_num [validateAndCompressImage, pngFile, MAX_FILE_SIZE, MAX_DIMENSION]
  · decide

/-- Claim C5 (amended): for every successfully decoded input within the
configured maximum dimension, the validator keeps both pixel dimensions
unchanged (no resizing), but still re-encodes the image data as JPEG at
quality 0.92 on every success path. -/
theorem validate_inBounds_amended (file : ImgFile) (decode : DecodeOutcome)
    (w h : ℕ) (hsize : file.size ≤ MAX_FILE_SIZE) (hdec : decode = .ok w h)
    (hw : w ≤ MAX_DIMENSION) (hh : h ≤ MAX_DIMENSION) :
    validateAndCompressImage file decode =
      .ok { width := w, height := h, mime := "image/jpeg",
            quality := 92/100, name := file.name } := by
  subst hdec
  have hns : ¬ (MAX_DIMENSION < w ∨ MAX_DIMENSION < h) := by
    push_neg
    exact ⟨hw, hh⟩
  simp [validateAndCompressImage, Nat.not_lt.2 hsize, hns]

/-- Witness for the amended C5 at the concrete PNG input. -/
theorem validate_inBounds_amended_witness :
    validateAndCompressImage pngFile (.ok 3000 2000) =
      .ok { width := 3000, height := 2000, mime := "image/jpeg",
            quality := 92/100, name := pngFile.name } :=
  validate_inBounds_amended pngFile (.ok 3000 2000) 3000 2000
    (by decide) rfl (by decide) (by decide)

/-- Claim C6: the validator fails with `TooLarge` iff the file's byte size
exceeds 10 MB, for every decode outcome — the size check precedes decoding,
so even a failed or timed-out decode cannot change the `TooLarge` verdict. -/
theorem tooLarge_iff (file : ImgFile) (decode : DecodeOutcome) :
    validateAndCompressImage file decode = .error .tooLarge ↔
      MAX_FILE_SIZE < file.size := by
  rcases Nat.lt_or_ge MAX_FILE_SIZE file.size with h | h
  · simp [validateAndCompressImage, h]
  · have h' : ¬ MAX_FILE_SIZE < file.size := Nat.not_lt.2 h
    cases decode <;> simp [validateAndCompressImage, h']

/-- Witness for C6: a file one byte over the limit is rejected as
`TooLarge` even though its decode outcome is a failure. -/
theorem tooLarge_iff_witness :
    validateAndCompressImage oversizedFile DecodeOutcome.failed =
      .error .tooLarge :=
  (tooLarge_iff oversizedFile DecodeOutcome.failed).mpr (by decide)

/-- Counterexample to claim C7: the full capture run's progress sequence
(0, 20, 10, 30, 50, 62, 78, 90, 90, 100) is not non-decreasing —
`handleImageCapture` reports 20 after validation and then
`processAndDisplayImage` restarts at 10. -/
theorem captureProgress_not_monotone :
    ¬ handleImageCaptureProgressTrace.Pairwise (· ≤ ·) := by
  intro h
  have he : handleImageCaptureProgressTrace
      = [0, 20, 10, 30, 50, 62, 78, 90, 90, 100] := by
    norm_num [handleImageCaptureProgressTrace, processProgressTrace,
      roboflowProgressTrace]
  rw [he] at h
  norm_num [List.pairwise_cons] at h

/-- Claim C7 (amended): within one `processAndDisplayImage` run the
percentages delivered to the caller's progress callback —
10, 30, 50, 62, 78, 90, 90, 100 — are non-decreasing; the full capture
flow's sequence, which first reports 0 and 20, is not. -/
theorem processProgress_monotone :
    processProgressTrace.Pairwise (· ≤ ·) ∧
    processProgressTrace = [10, 30, 50, 62, 78, 90, 90, 100] := by
  have he : processProgressTrace = [10, 30, 50, 62, 78, 90, 90, 100] := by
    norm_num [processProgressTrace, roboflowProgressTrace]
  refine ⟨?_, he⟩
  rw [he]
  norm_num [List.pairwise_cons]

/-- Claim C8: for every canvas size and detection list — including boxes
partially or entirely outside the canvas, with negative coordinates — the
annotation renderer returns successfully (its only failure path is the
image failing to load), and a box lying entirely outside
`[0, w] × [0, h]` has every one of its fill/stroke rectangle commands
disjoint from the canvas, i.e. it is silently clipped and not visible. -/
theorem drawDetections_total_and_clips (w h : ℕ) (dets : List Detection) :
    (∃ r, drawDetectionsOnCanvas true w h dets = .ok r) ∧
    ∀ d ∈ dets, entirelyOutside w h d →
      ∀ i : ℕ, ∀ c ∈ drawDetection i d, ∀ px py : ℚ,
        rectCmdCovers c px py → ¬ pointInCanvas w h px py := by
  constructor
  · exact ⟨_, rfl⟩
  · intro d _ hout i c hc px py hcov hcan
    rcases List.mem_append.1 hc with hc' | hc'
    · simp only [List.mem_cons, List.not_mem_nil, or_false] at hc'
      rcases hc' with rfl | rfl | rfl | rfl
      · exact outside_box_disjoint_canvas w h d hout px py hcov hcan
      · exact outside_box_disjoint_canvas w h d hout px py hcov hcan
      · exact hcov
      · exact hcov
    · split at hc'
      · simp only [List.mem_cons, List.not_mem_nil, or_false] at hc'
        rcases hc' with rfl | rfl
        · exact hcov
        · exact hcov
      · exact absurd hc' (List.not_mem_nil c)

/-- Witness for C8: with one box entirely outside a 100×100 canvas, the
renderer succeeds and the point (-45, -45) covered by that box's fill
command is outside the canvas. -/
theorem drawDetections_total_and_clips_witness :
    (∃ r, drawDetectionsOnCanvas true 100 100 [outsideDet] = .ok r) ∧
    ¬ pointInCanvas 100 100 (-45) (-45) :=
  ⟨(drawDetections_total_and_clips 100 100 [outsideDet]).1,
   (drawDetections_total_and_clips 100 100 [outsideDet]).2 outsideDet
     (List.mem_singleton.mpr rfl)
     (by norm_num [entirelyOutside, outsideDet]) 0
     (.fillRect (-50) (-50) 10 10)
     (by norm_num [drawDetection, outsideDet]) (-45) (-45)
     (by norm_num [rectCmdCovers])⟩

/-- Claim C9: both coordinate mapping steps pass the confidence field
through unchanged, and the class label is passed through unchanged by the
prediction-to-detection conversion (the `files` draft mapper's detections
carry no class field at all, on input or output). -/
theorem mapper_preserves_conf_and_label (s : ℚ) (d : PlainDetection)
    (p : Prediction) :
    (scaleDetection s d).confidence = d.confidence ∧
    (toDetection p).confidence = p.confidence ∧
    (toDetection p).cls = p.cls :=
  ⟨rfl, rfl, rfl⟩

/-- Claim C10: in every result object produced by a successful pipeline run
— of either pipeline variant — `pillCount` equals the length of the
`detections` sequence of the same result. -/
theorem pillCount_eq_detections_length (url : String) (ow oh : ℕ)
    (preds : Option (List Prediction)) (raw : List PlainDetection)
    (ts : String) :
    (processResult url ow oh preds ts).pillCount =
      (processResult url ow oh preds ts).detections.length ∧
    (filesProcessResult url ow oh raw ts).pillCount =
      (filesProcessResult url ow oh raw ts).detections.length :=
  ⟨rfl, rfl⟩

end PillCounter
